import Mathlib

/-!
Shallow embedding of the conversational core of `chat-widget.js`:
conversation history, the send / cancel / edit-resubmit lifecycle,
chart-intent detection and the background insights poll loop.
-/

namespace QubeWidget

/-- JS `String.prototype.toLowerCase`, modelled character-wise. -/
def lowerStr (s : String) : String := String.mk (s.data.map Char.toLower)

/-- JS `String.prototype.trim`: leading and trailing whitespace removed. -/
def jsTrim (s : String) : String :=
  String.mk (((s.data.dropWhile Char.isWhitespace).reverse.dropWhile Char.isWhitespace).reverse)

/-- JS `String.prototype.includes`: substring containment on the code units. -/
def strIncludes (hay ndl : String) : Bool := decide (ndl.data <:+: hay.data)

/-- The `chartKeywords` array of `detectChartRequest` (chat-widget.js:445-465). -/
def chartKeywords : List String :=
  ["chart", "graph", "plot", "visualization", "visualize", "visual",
   "bar chart", "line chart", "pie chart", "scatter plot", "histogram",
   "area chart", "donut chart", "bubble chart",
   "show", "display", "create", "generate", "draw", "make", "build",
   "show me a chart", "create a graph", "generate visualization",
   "display chart", "make a plot", "draw a graph", "build a chart",
   "show visualization", "create visualization", "display graph",
   "show graph", "make graph", "generate chart", "generate graph",
   "trend", "trending", "pattern", "growth", "comparison", "compare",
   "over time", "by month", "by year", "by quarter", "distribution"]

/-- The exact-phrase list checked first by `detectChartRequest` (chat-widget.js:470-477). -/
def phrases : List String :=
  ["show me a chart", "create a graph", "generate visualization",
   "display chart", "make a plot", "draw a graph", "build a chart",
   "show visualization", "create visualization", "display graph",
   "show graph", "make graph", "generate chart", "generate graph",
   "bar chart", "line chart", "pie chart", "scatter plot",
   "area chart", "donut chart", "bubble chart", "over time"]

/-- The generic-verb guard of `detectChartRequest` (chat-widget.js:489). -/
def isGenericVerb (k : String) : Bool :=
  k == "show" || k == "display" || k == "create" || k == "generate" || k == "make"

/-- The `chartRelated` context-noun list of `detectChartRequest` (chat-widget.js:491). -/
def chartRelated : List String :=
  ["chart", "graph", "plot", "visualization", "visual", "trend", "pattern"]

/-- `detectChartRequest` (chat-widget.js:444-504): lowercase the query, return
true on the first exact-phrase hit; otherwise scan the keywords, where a
generic verb counts only when a chart-domain noun also occurs; no hit is false. -/
def detectChartRequest (query : String) : Bool :=
  let queryLower := lowerStr query
  if phrases.any (fun p => strIncludes queryLower p) then
    true
  else
    chartKeywords.any (fun k =>
      strIncludes queryLower k &&
        (if isGenericVerb k then
          chartRelated.any (fun t => strIncludes queryLower t)
        else
          true))

/-- The phrase list entry used by time-series queries. -/
def overTimePhrase : String := "over time"

/-- The unguarded keyword `draw`. -/
def drawKeyword : String := "draw"

/-- The unguarded keyword `build`. -/
def buildKeyword : String := "build"

/-- Status string of a pending insights job. -/
def statusPending : String := "pending"

/-- Status string of a finished insights job. -/
def statusReady : String := "ready"

/-- Status string of a failed insights job. -/
def statusError : String := "error"

/-- One settled status fetch as observed by the `poll` closure
(chat-widget.js:636-669 and 794-822): either a parsed JSON payload with its
`status` string, or a thrown transport error (the `catch` arm). -/
inductive PollFetch where
  | res (status : String) (insights : Option String) (follow_up_questions : List String)
  | thrown
deriving DecidableEq

/-- A nonterminal status fetch used in statements about the poll loop. -/
def pendingFetch : PollFetch := PollFetch.res statusPending none []

/-- The terminal render placed into the insights slot when the poll loop stops. -/
inductive InsightsTerminal where
  | ready (insights : Option String) (follow_up_questions : List String)
  | unavailable
  | tookTooLong
deriving DecidableEq

/-- Observable events of one poll run: a status check issued, the 900ms
progress `stepTimer` cleared, or a terminal render into the insights slot. -/
inductive PollEvent where
  | check
  | clearStepTimer
  | render (t : InsightsTerminal)
deriving DecidableEq

/-- `maxAttempts` of the insights poll loop (chat-widget.js:635 and 793). -/
def maxAttempts : Nat := 20

/-- The poll cadence in milliseconds: `setTimeout(poll, 1000)`. -/
def pollIntervalMs : Nat := 1000

/-- The cosmetic progress `stepTimer` cadence: `setInterval(..., 900)`. -/
def stepTimerMs : Nat := 900

/-- Is this event a status check? -/
def isCheckEvent : PollEvent → Bool
  | PollEvent.check => true
  | _ => false

/-- Is this event a terminal render? -/
def isRenderEvent : PollEvent → Bool
  | PollEvent.render _ => true
  | _ => false

/-- Is this event a `clearInterval(stepTimer)`? -/
def isClearEvent : PollEvent → Bool
  | PollEvent.clearStepTimer => true
  | _ => false

/-- Does this fetch outcome take the nonterminal (`attempts++`) arm of the
poll closure — a thrown transport error, or a status that is neither
`ready` nor `error`? -/
def nonTerminalFetch : PollFetch → Bool
  | PollFetch.res status _ _ => !(status == statusReady) && !(status == statusError)
  | PollFetch.thrown => true

/-- The self-rescheduling `poll` closure (identical in chat-widget.js:636-670
and 791-823), as the list of its observable events.  `resp i` is the settled
outcome of the i-th status fetch; `remaining` is `maxAttempts - attempts` at
the moment the closure fires, so a run starts with `remaining = maxAttempts`.
A `ready` or `error` status clears the step timer and renders once; anything
else (a thrown fetch included) increments `attempts` and reschedules while
budget is left, and renders the timeout notice when it is not. -/
def pollAux (resp : Nat → PollFetch) (i : Nat) : Nat → List PollEvent
  | 0 => []
  | remaining + 1 =>
    PollEvent.check ::
      (let cont :=
        match remaining with
        | 0 => [PollEvent.clearStepTimer, PollEvent.render InsightsTerminal.tookTooLong]
        | _ + 1 => pollAux resp (i + 1) remaining
      match resp i with
      | PollFetch.res status insights fu =>
        if status == statusReady then
          [PollEvent.clearStepTimer, PollEvent.render (InsightsTerminal.ready insights fu)]
        else if status == statusError then
          [PollEvent.clearStepTimer, PollEvent.render InsightsTerminal.unavailable]
        else cont
      | PollFetch.thrown => cont)

/-- A whole enrichment polling run: the first check fires after the initial
`setTimeout(poll, 1000)` with the full attempt budget open. -/
def insightsPoll (resp : Nat → PollFetch) : List PollEvent :=
  pollAux resp 0 maxAttempts

/-- One conversation turn, `{ role, content }`, as pushed into
`conversationHistory`. -/
structure Turn where
  role : String
  content : String
deriving DecidableEq

/-- Role string of user turns. -/
def roleUser : String := "user"

/-- Role string of assistant turns. -/
def roleAssistant : String := "assistant"

/-- The "Send" label of the single action button. -/
def labelSend : String := "Send"

/-- The "Stop" label of the single action button while a request is in flight. -/
def labelStop : String := "Stop"

/-- The user message container built by `displayMessage(query, 'user')`
(chat-widget.js:862-877): its bubble text, whether the bubble is currently
`contentEditable`, and which action buttons are attached under it. -/
structure MsgContainer where
  bubbleText : String
  bubbleEditable : Bool
  hasCopyButton : Bool
  hasEditButton : Bool
deriving DecidableEq

/-- The environment-selector header value sent with every ask request. -/
def askEnvHeader : String := "PRID-UAT"

/-- The body and environment header of one `fetch` to the ask endpoint
(chat-widget.js:528-540 and 711-723). -/
structure AskRequest where
  query : String
  conversation_history : List Turn
  show_charts : Bool
  env : String
deriving DecidableEq

/-- A row of the `data` array of an ask response.  The lifecycle code never
inspects row contents, so a row is kept opaque as its JSON text. -/
abbrev Row := String

/-- A parsed 2xx ask-endpoint response body (`result`).  Absent JSON fields
are `none`; an absent `data` array behaves like an empty one because the
code only tests `result.data && result.data.length > 0`. -/
structure AskResult where
  error : Option String
  question : Option String
  data : List Row
  chart : Option String
  request_id : Option String
  conversation_history : Option (List Turn)
deriving DecidableEq

/-- JS truthiness of an optional string field: `undefined` and the empty
string are falsy. -/
def jsTruthyStr : Option String → Bool
  | some s => !(s == "")
  | none => false

/-- `detail || fallback`: JS `||` takes the fallback on a missing or empty
left operand. -/
def jsOrElse (s : Option String) (dflt : String) : String :=
  match s with
  | some d => if d == "" then dflt else d
  | none => dflt

/-- Fallback text when a non-2xx response carries no usable `detail`. -/
def unknownErrorMsg : String := "An unknown error occurred."

/-- Apology shown on a transport failure (chat-widget.js:698 and 843). -/
def apologyMsg : String := "Sorry, could not connect to the AI service. Please ensure the backend is running."

/-- Assistant entry recorded when the body carries an `error` field
(chat-widget.js:575 and 747). -/
def genericErrorHistoryMsg : String := "An error occurred. Please check the logs."

/-- Intro bubble of a chart response. -/
def vizIntroMsg : String := "Here\x27s a visualization of your data:"

/-- Intro bubble of a plain table response. -/
def resultsIntroMsg : String := "Here are the results for your query:"

/-- Bubble shown when the response has no data rows. -/
def noResultsMsg : String := "No results found for your query."

/-- The fields of a thrown `fetch` error the catch arms inspect —
`error.name` and `error.code` — plus its never-inspected message text. -/
structure JsError where
  name : String
  code : Nat
  message : String
deriving DecidableEq

/-- `error.name === 'AbortError' || error.code === 20`
(chat-widget.js:693 and 841): cancellation is recognised by the identity of
the abort signal, not by the error message. -/
def isAbortedError (e : JsError) : Bool :=
  e.name == "AbortError" || e.code == 20

/-- The rejection produced when `currentAbortController.abort()` cancels the
in-flight `fetch`. -/
def abortRejection : JsError :=
  { name := "AbortError", code := 20, message := "" }

/-- Settled outcome of one ask-endpoint `fetch`: a 2xx response with parsed
body, a non-2xx response with its parsed `detail`, or a rejection. -/
inductive FetchOutcome where
  | ok (result : AskResult)
  | notOk (detail : Option String)
  | thrown (e : JsError)
deriving DecidableEq

/-- The module-level mutable widget state of chat-widget.js, plus two
observability logs: the AI-side bubbles displayed (`displayed`) and the
requests issued to the ask endpoint (`issued`).  `abortCtrl` models
`currentAbortController` (`some b`: a controller exists and `b` records
whether `abort()` was called); `activeEditableBubble` records whether the
variable of the same name points at the last user container's bubble, the
only bubble the source ever assigns to it through `enableEditing`. -/
structure St where
  conversationHistory : List Turn
  isProcessing : Bool
  sendButtonLabel : String
  inputValue : String
  loadingShown : Bool
  abortCtrl : Option Bool
  lastUserMessageContainer : Option MsgContainer
  activeEditableBubble : Bool
  showChartVisualization : Bool
  displayed : List String
  issued : List AskRequest
deriving DecidableEq

/-- `setProcessingState(processing)` (chat-widget.js:107-118): sets the flag
and flips the single action button between "Send" and "Stop". -/
def setProcessingStateFn (p : Bool) (st : St) : St :=
  { st with
      isProcessing := p
      sendButtonLabel := if p then labelStop else labelSend }

/-- `displayLoading(isLoading)` (chat-widget.js:1897-1925), reduced to the
presence of the transient loading indicator (it never enters history). -/
def displayLoadingFn (b : Bool) (st : St) : St :=
  { st with loadingShown := b }

/-- The `'user'` arm of `displayMessage` (chat-widget.js:862-877): create the
container with a copy action, remember it, and push the user turn. -/
def displayUserMessage (message : String) (st : St) : St :=
  { st with
      lastUserMessageContainer := some
        { bubbleText := message
          bubbleEditable := false
          hasCopyButton := true
          hasEditButton := false }
      conversationHistory :=
        st.conversationHistory ++ [{ role := roleUser, content := message }] }

/-- The `'ai'` arm of `displayMessage`: display a standalone assistant bubble. -/
def displayAiMessage (message : String) (st : St) : St :=
  { st with displayed := st.displayed ++ [message] }

/-- The history trim of `stopRequest` (chat-widget.js:151-153): remove the
final entry iff its role is `'user'`. -/
def popLastIfUser (l : List Turn) : List Turn :=
  match l.getLast? with
  | some t => if t.role == roleUser then l.dropLast else l
  | none => l

/-- `makeMessageEditable` (chat-widget.js:219-225): after a stop, attach the
copy and edit actions to the container (editing itself starts only from the
edit action via `enableEditing`). -/
def makeMessageEditableFn (c : MsgContainer) : MsgContainer :=
  { c with hasCopyButton := true, hasEditButton := true }

/-- `stopRequest` (chat-widget.js:142-158): abort the in-flight controller if
any, hide the loader, clear the processing flag, drop the last history entry
iff it is a user turn, and attach the edit affordance to the last user
message container. -/
def stopRequest (st : St) : St :=
  let st1 := { st with abortCtrl := st.abortCtrl.map (fun _ => true) }
  let st2 := displayLoadingFn false st1
  let st3 := setProcessingStateFn false st2
  let st4 := { st3 with conversationHistory := popLastIfUser st3.conversationHistory }
  { st4 with
      lastUserMessageContainer := st4.lastUserMessageContainer.map makeMessageEditableFn }

/-- `enableEditing(container)` (chat-widget.js:200-217) on the last user
container: the bubble becomes `contentEditable` and `activeEditableBubble`
starts pointing at it. -/
def enableEditing (st : St) : St :=
  match st.lastUserMessageContainer with
  | some c =>
    { st with
        lastUserMessageContainer := some { c with bubbleEditable := true }
        activeEditableBubble := true }
  | none => st

/-- `removeEditToolbar(container)` (chat-widget.js:227-237): drop the edit
button, keep the copy button. -/
def removeEditToolbarFn (c : MsgContainer) : MsgContainer :=
  { c with hasEditButton := false }

/-- The user typing into the `contentEditable` bubble; this models the DOM
text entry between cancel and resubmit, not a source function. -/
def userEditsBubble (newText : String) (st : St) : St :=
  { st with
      lastUserMessageContainer :=
        st.lastUserMessageContainer.map (fun c => { c with bubbleText := newText }) }

/-- The request constructed by both `sendMessage` and `startRequest`
(chat-widget.js:528-540 and 711-723): the query, the current history (the
new user turn already pushed) and the chart-visibility flag, under the
environment header. -/
def mkAskRequest (query : String) (hist : List Turn) (show_charts : Bool) : AskRequest :=
  { query := query
    conversation_history := hist
    show_charts := show_charts
    env := askEnvHeader }

/-- The synchronous prefix of `startRequest(query)` (chat-widget.js:704-723),
up to and including dispatching the `fetch`: show the loader, set processing,
create the abort controller and issue the request.  The caller has already
pushed the edited user turn. -/
def startRequestBegin (query : String) (st : St) : St :=
  let shouldShowCharts := st.showChartVisualization || detectChartRequest query
  let st1 := displayLoadingFn true st
  let st2 := setProcessingStateFn true st1
  { st2 with
      abortCtrl := some false
      issued :=
        st2.issued ++ [mkAskRequest query st2.conversationHistory shouldShowCharts] }

/-- The synchronous prefix of `sendMessage` (chat-widget.js:507-540), up to
and including dispatching the `fetch`: trim the input (an empty query is a
no-op), display and push the user turn, clear the input, show the loader,
set processing, create the abort controller and issue the request. -/
def sendMessageBegin (st : St) : St :=
  let query := jsTrim st.inputValue
  if query == "" then st
  else
    let shouldShowCharts := st.showChartVisualization || detectChartRequest query
    let st1 := displayUserMessage query st
    let st2 := { st1 with inputValue := "" }
    let st3 := displayLoadingFn true st2
    let st4 := setProcessingStateFn true st3
    { st4 with
        abortCtrl := some false
        issued :=
          st4.issued ++ [mkAskRequest query st4.conversationHistory shouldShowCharts] }

/-- The settlement of one ask-endpoint `fetch`, identical in `sendMessage`
(chat-widget.js:542-700) and `startRequest` (chat-widget.js:725-845).
On a response: hide the loader, clear processing, null the controller; a
non-2xx response displays its `detail` (or the fallback) and records it as
an assistant turn; a 2xx body first adopts a nonempty server
`conversation_history` wholesale and then renders by shape (error /
question / data / no data).  On a rejection: hide the loader, clear
processing; an abort (recognised by signal identity) does nothing further,
anything else displays the apology without touching history.
`shouldShowCharts` is the flag captured when the request was issued; the
enrichment poll spawned on `request_id` is modelled by `insightsPoll`. -/
def settleAsk (shouldShowCharts : Bool) (st : St) (o : FetchOutcome) : St :=
  match o with
  | FetchOutcome.notOk detail =>
    let st1 := displayLoadingFn false st
    let st2 := setProcessingStateFn false st1
    let st3 := { st2 with abortCtrl := none }
    let msg := jsOrElse detail unknownErrorMsg
    let st4 := displayAiMessage msg st3
    { st4 with
        conversationHistory :=
          st4.conversationHistory ++ [{ role := roleAssistant, content := msg }] }
  | FetchOutcome.ok result =>
    let st1 := displayLoadingFn false st
    let st2 := setProcessingStateFn false st1
    let st3 := { st2 with abortCtrl := none }
    let st4 :=
      match result.conversation_history with
      | some h =>
        if h.length > 0 then { st3 with conversationHistory := h } else st3
      | none => st3
    if jsTruthyStr result.error then
      let st5 := displayAiMessage (result.error.getD "") st4
      { st5 with
          conversationHistory :=
            st5.conversationHistory ++
              [{ role := roleAssistant, content := genericErrorHistoryMsg }] }
    else if jsTruthyStr result.question then
      displayAiMessage (result.question.getD "") st4
    else if result.data.length > 0 then
      if jsTruthyStr result.chart && shouldShowCharts then
        displayAiMessage vizIntroMsg st4
      else
        displayAiMessage resultsIntroMsg st4
    else
      displayAiMessage noResultsMsg st4
  | FetchOutcome.thrown e =>
    let st1 := displayLoadingFn false st
    let st2 := setProcessingStateFn false st1
    if isAbortedError e then st2
    else displayAiMessage apologyMsg st2

/-- The commit-from-edit path shared by `handleSendButtonClick`
(chat-widget.js:125-137) and `onEditableBubbleKeydown`
(chat-widget.js:242-251): read the bubble text, reject a blank edit, push
the edited text fresh as a user turn, detach the edit toolbar, disable
editing, clear `activeEditableBubble` and start the resend. -/
def commitFromEdit (st : St) : St :=
  match st.lastUserMessageContainer with
  | some c =>
    let edited := jsTrim c.bubbleText
    if edited == "" then st
    else
      let st1 :=
        { st with
            conversationHistory :=
              st.conversationHistory ++ [({ role := roleUser, content := edited } : Turn)] }
      let st2 :=
        { st1 with
            lastUserMessageContainer :=
              some ({ removeEditToolbarFn c with bubbleEditable := false } : MsgContainer)
            activeEditableBubble := false }
      startRequestBegin edited st2
  | none => st

/-- `handleSendButtonClick` (chat-widget.js:120-140): while processing the
button is a stop control; with an active editable bubble it commits the
edit; otherwise it sends from the input field. -/
def handleSendButtonClick (st : St) : St :=
  if st.isProcessing then stopRequest st
  else if st.activeEditableBubble then commitFromEdit st
  else sendMessageBegin st

/-- The `event.key` string of the Enter key. -/
def keyEnter : String := "Enter"

/-- The input-field keydown listener (chat-widget.js:48-60): Enter while
processing is suppressed; Enter with an active editable bubble is left to
the bubble; otherwise Enter sends. -/
def onInputKeydown (key : String) (st : St) : St :=
  if key == keyEnter then
    if st.isProcessing then st
    else if st.activeEditableBubble then st
    else sendMessageBegin st
  else st

/-- `onEditableBubbleKeydown` (chat-widget.js:239-252): Enter without Shift
commits the edit when an editable bubble is active. -/
def onEditableBubbleKeydown (key : String) (shiftKey : Bool) (st : St) : St :=
  if key == keyEnter && !shiftKey then
    if st.activeEditableBubble then commitFromEdit st else st
  else st

/-- The action-button and processing-flag lockstep maintained by
`setProcessingState`. -/
def procLabelInv (st : St) : Prop :=
  st.sendButtonLabel = if st.isProcessing then labelStop else labelSend

/-- The initial widget state (chat-widget.js:13-23), with the "Send" label
the host page gives the action button. -/
def initialSt : St :=
  { conversationHistory := []
    isProcessing := false
    sendButtonLabel := labelSend
    inputValue := ""
    loadingShown := false
    abortCtrl := none
    lastUserMessageContainer := none
    activeEditableBubble := false
    showChartVisualization := false
    displayed := []
    issued := [] }

/-- A first sample query. -/
def helloQuery : String := "hello"

/-- A second sample query. -/
def againQuery : String := "again"

/-- A clarification question returned by the backend. -/
def clarifyQuestion : String := "Which time period do you mean?"

/-- A 2xx body carrying only a clarification question; the code pushes
nothing to history for it. -/
def clarifyResult : AskResult :=
  { error := none
    question := some clarifyQuestion
    data := []
    chart := none
    request_id := none
    conversation_history := none }

/-- Scenario: `helloQuery` has been sent. -/
def sentHelloSt : St := sendMessageBegin { initialSt with inputValue := helloQuery }

/-- Scenario: the send settled with a clarification question, so the history
still ends with the user turn. -/
def clarifiedSt : St := settleAsk false sentHelloSt (FetchOutcome.ok clarifyResult)

/-- Scenario: a second query is in flight on top of the clarified state. -/
def sentAgainSt : St := sendMessageBegin { clarifiedSt with inputValue := againQuery }

/-- Scenario: the in-flight second query has been cancelled once. -/
def cancelledOnceSt : St := stopRequest sentAgainSt

/-- The draft text of the edit-resubmit scenario. -/
def draftQuery : String := "list invoices"

/-- The edited text of the edit-resubmit scenario. -/
def editedQuery : String := "list overdue invoices"

/-- Scenario: the draft is composed in the input field. -/
def draftSt : St := { initialSt with inputValue := draftQuery }

/-- Scenario: the draft has been sent. -/
def sentDraftSt : St := sendMessageBegin draftSt

/-- Scenario: the draft send has been cancelled. -/
def cancelledDraftSt : St := stopRequest sentDraftSt

/-- Scenario: the aborted fetch of the cancelled draft send has settled. -/
def abortSettledDraftSt : St :=
  settleAsk (draftSt.showChartVisualization || detectChartRequest (jsTrim draftSt.inputValue))
    cancelledDraftSt (FetchOutcome.thrown abortRejection)

/-- Scenario: the user clicked the attached edit action. -/
def editingDraftSt : St := enableEditing abortSettledDraftSt

/-- Scenario: the user replaced the bubble text with the edited query. -/
def editedDraftSt : St := userEditsBubble editedQuery editingDraftSt

/-- Scenario: the edit was committed through the send button. -/
def resentDraftSt : St := handleSendButtonClick editedDraftSt

/-- A state whose history is a single user turn. -/
def oneUserSt : St :=
  { initialSt with conversationHistory := [{ role := roleUser, content := helloQuery }] }

/-- A 2xx body that includes an empty `conversation_history` array. -/
def emptyHistoryResult : AskResult :=
  { error := none
    question := some clarifyQuestion
    data := []
    chart := none
    request_id := none
    conversation_history := some ([] : List Turn) }

/-- An assistant reply recorded by the server. -/
def assistantReplyMsg : String := "Here are the dispatch ticket totals."

/-- A nonempty authoritative history returned by the server. -/
def serverHist : List Turn :=
  [{ role := roleUser, content := helloQuery },
   { role := roleAssistant, content := assistantReplyMsg }]

/-- A 2xx body carrying the nonempty authoritative history. -/
def adoptResult : AskResult :=
  { error := none
    question := none
    data := []
    chart := none
    request_id := none
    conversation_history := some serverHist }

/-- A body-level `error` string returned with a 2xx status. -/
def backendErrorMsg : String := "Schema validation failed."

/-- A 2xx body that carries both the nonempty authoritative history and an
`error` field. -/
def errorBodyResult : AskResult :=
  { error := some backendErrorMsg
    question := none
    data := []
    chart := none
    request_id := none
    conversation_history := some serverHist }

/-- A structured backend `detail` string. -/
def sampleBackendDetail : String := "Invalid SQL generated for this query."

/-- A network-unreachable rejection: not recognised as an abort. -/
def networkError : JsError :=
  { name := "TypeError", code := 0, message := "Failed to fetch" }

/-- A chart-intent query containing `over time`. -/
def salesOverTimeQuery : String := "sales totals over time"

/-- A query containing only the generic verb `show` and no chart-domain noun. -/
def showTicketsQuery : String := "Show me all tickets"

/-- A query containing `draw` only inside the word `withdraw`. -/
def withdrawQuery : String := "withdraw money from the account"

theorem countP_replicate_eq {α : Type} (p : α → Bool) (a : α) (n : Nat) :
    (List.replicate n a).countP p = if p a then n else 0 := by
  induction n with
  | zero => simp
  | succ m ih =>
    rw [List.replicate_succ, List.countP_cons, ih]
    cases h : p a <;> simp [h]

theorem pollAux_ready_step (resp : Nat → PollFetch) (i r : Nat)
    (status : String) (ins : Option String) (fu : List String)
    (hr : resp i = PollFetch.res status ins fu)
    (h : (status == statusReady) = true) :
    pollAux resp i (r + 1) =
      [PollEvent.check, PollEvent.clearStepTimer,
        PollEvent.render (InsightsTerminal.ready ins fu)] := by
  simp only [pollAux, hr, h]
  rfl

theorem pollAux_error_step (resp : Nat → PollFetch) (i r : Nat)
    (status : String) (ins : Option String) (fu : List String)
    (hr : resp i = PollFetch.res status ins fu)
    (h1 : (status == statusReady) = false)
    (h2 : (status == statusError) = true) :
    pollAux resp i (r + 1) =
      [PollEvent.check, PollEvent.clearStepTimer,
        PollEvent.render InsightsTerminal.unavailable] := by
  simp only [pollAux, hr, h1, h2]
  rfl

theorem pollAux_cont_step (resp : Nat → PollFetch) (i r : Nat)
    (h : nonTerminalFetch (resp i) = true) :
    pollAux resp i (r + 1) =
      PollEvent.check ::
        (match r with
          | 0 => [PollEvent.clearStepTimer, PollEvent.render InsightsTerminal.tookTooLong]
          | _ + 1 => pollAux resp (i + 1) r) := by
  rcases hr : resp i with ⟨status, ins, fu⟩ | _
  · rw [hr] at h
    simp only [nonTerminalFetch, Bool.and_eq_true, Bool.not_eq_eq_eq_not, Bool.not_true] at h
    simp only [pollAux, hr, h.1, h.2]
    rfl
  · simp only [pollAux, hr]

theorem pollAux_shape (resp : Nat → PollFetch) :
    ∀ b, 1 ≤ b → ∀ i, ∃ n t,
      pollAux resp i b =
        List.replicate n PollEvent.check ++
          [PollEvent.clearStepTimer, PollEvent.render t] ∧
      1 ≤ n ∧ n ≤ b := by
  intro b
  induction b with
  | zero => intro h; exact absurd h (by decide)
  | succ r ih =>
    intro _ i
    by_cases hnt : nonTerminalFetch (resp i) = true
    · rw [pollAux_cont_step resp i r hnt]
      cases r with
      | zero => exact ⟨1, InsightsTerminal.tookTooLong, rfl, by decide, by decide⟩
      | succ r2 =>
        obtain ⟨n, t, heq, h1, h2⟩ := ih (by omega) (i + 1)
        refine ⟨n + 1, t, ?_, by omega, by omega⟩
        rw [List.replicate_succ]
        simpa using congrArg (fun l => PollEvent.check :: l) heq
    · rcases hr : resp i with ⟨status, ins, fu⟩ | _
      · rw [hr] at hnt
        simp only [nonTerminalFetch, Bool.and_eq_true, Bool.not_eq_eq_eq_not,
          Bool.not_true, not_and] at hnt
        by_cases hready : (status == statusReady) = true
        · refine ⟨1, InsightsTerminal.ready ins fu, ?_, by decide, by omega⟩
          rw [pollAux_ready_step resp i r status ins fu hr hready]
          rfl
        · have herr : (status == statusError) = true := by
            rcases h2 : (status == statusError) with _ | _
            · exact absurd (hnt (by simpa using hready)) (by simp [h2])
            · rfl
          refine ⟨1, InsightsTerminal.unavailable, ?_, by decide, by omega⟩
          rw [pollAux_error_step resp i r status ins fu hr (by simpa using hready) herr]
          rfl
      · rw [hr] at hnt
        exact absurd rfl hnt

theorem pollAux_congr (resp resp' : Nat → PollFetch)
    (h : ∀ j, resp j = resp' j ∨
      (nonTerminalFetch (resp j) = true ∧ nonTerminalFetch (resp' j) = true)) :
    ∀ b i, pollAux resp i b = pollAux resp' i b := by
  intro b
  induction b with
  | zero => intro i; rfl
  | succ r ih =>
    intro i
    have hcont : nonTerminalFetch (resp i) = true →
        nonTerminalFetch (resp' i) = true →
        pollAux resp i (r + 1) = pollAux resp' i (r + 1) := by
      intro h1 h2
      rw [pollAux_cont_step resp i r h1, pollAux_cont_step resp' i r h2]
      cases r with
      | zero => rfl
      | succ r2 => rw [ih]
    rcases h i with heq | ⟨h1, h2⟩
    · by_cases hnt : nonTerminalFetch (resp i) = true
      · exact hcont hnt (by rw [← heq]; exact hnt)
      · rcases hr : resp i with ⟨status, ins, fu⟩ | _
        · have hr' : resp' i = PollFetch.res status ins fu := by rw [← heq]; exact hr
          rw [hr] at hnt
          simp only [nonTerminalFetch, Bool.and_eq_true, Bool.not_eq_eq_eq_not,
            Bool.not_true, not_and] at hnt
          by_cases hready : (status == statusReady) = true
          · rw [pollAux_ready_step resp i r status ins fu hr hready,
              pollAux_ready_step resp' i r status ins fu hr' hready]
          · have herr : (status == statusError) = true := by
              rcases h2 : (status == statusError) with _ | _
              · exact absurd (hnt (by simpa using hready)) (by simp [h2])
              · rfl
            rw [pollAux_error_step resp i r status ins fu hr (by simpa using hready) herr,
              pollAux_error_step resp' i r status ins fu hr' (by simpa using hready) herr]
        · rw [hr] at hnt
          exact absurd rfl hnt
    · exact hcont h1 h2

/-- C6: every enrichment polling run issues at most `maxAttempts = 20`
status checks (scheduled at the fixed 1000ms cadence) and renders exactly
one terminal state; a thrown transport error during a single poll is
swallowed and handled exactly like a pending status — counted toward the
attempt budget without terminating the loop. -/
theorem insightsPoll_budget_and_single_terminal :
    (∀ resp : Nat → PollFetch,
        (insightsPoll resp).countP isCheckEvent ≤ maxAttempts ∧
        (insightsPoll resp).countP isRenderEvent = 1) ∧
    (∀ (resp : Nat → PollFetch) (i : Nat),
        insightsPoll (fun j => if j = i then PollFetch.thrown else resp j) =
          insightsPoll (fun j => if j = i then pendingFetch else resp j)) ∧
    maxAttempts = 20 ∧ pollIntervalMs = 1000 := by
  refine ⟨?_, ?_, rfl, rfl⟩
  · intro resp
    obtain ⟨n, t, heq, h1, h2⟩ := pollAux_shape resp maxAttempts (by decide) 0
    unfold insightsPoll
    rw [heq]
    constructor
    · have hc : (List.replicate n PollEvent.check ++
          [PollEvent.clearStepTimer, PollEvent.render t]).countP isCheckEvent = n := by
        simp [List.countP_append, countP_replicate_eq, List.countP_cons, isCheckEvent]
      rw [hc]
      exact h2
    · simp [List.countP_append, countP_replicate_eq, List.countP_cons,
        isRenderEvent]
  · intro resp i
    apply pollAux_congr
    intro j
    by_cases hj : j = i
    · exact Or.inr ⟨by rw [if_pos hj]; decide, by rw [if_pos hj]; decide⟩
    · exact Or.inl (by simp [hj])

/-- C7: the cosmetic 900ms progress timer is cancelled on every terminal
path of the poll loop — the whole run is some checks followed by exactly one
`clearInterval(stepTimer)` and the terminal render, with nothing after it. -/
theorem insightsPoll_clears_progress_timer :
    ∀ resp : Nat → PollFetch, ∃ n t,
      insightsPoll resp =
        List.replicate n PollEvent.check ++
          [PollEvent.clearStepTimer, PollEvent.render t] ∧
      (insightsPoll resp).countP isClearEvent = 1 ∧
      stepTimerMs = 900 := by
  intro resp
  obtain ⟨n, t, heq, h1, h2⟩ := pollAux_shape resp maxAttempts (by decide) 0
  refine ⟨n, t, heq, ?_, rfl⟩
  unfold insightsPoll
  rw [heq]
  simp [List.countP_append, countP_replicate_eq, List.countP_cons, isClearEvent]

theorem strIncludes_true_iff (hay ndl : String) :
    strIncludes hay ndl = true ↔ ndl.data <:+: hay.data := by
  simp [strIncludes]

theorem isInfix_map (f : Char → Char) {l₁ l₂ : List Char} (h : l₁ <:+: l₂) :
    l₁.map f <:+: l₂.map f := by
  obtain ⟨s, t, rfl⟩ := h
  exact ⟨s.map f, t.map f, by simp⟩

/-- C5: any query containing `over time` (or any phrase of the exact-phrase
list, case-insensitively) makes `detectChartRequest` return true; a query
whose only keyword hits are the context-guarded generic verbs and which
contains no phrase and no chart-domain noun yields false; and the absence of
any keyword match yields false. -/
theorem detectChartRequest_matches_spec :
    (∀ q : String, overTimePhrase.data <:+: q.data → detectChartRequest q = true) ∧
    (∀ q : String, ∀ p ∈ phrases, p.data <:+: (lowerStr q).data →
        detectChartRequest q = true) ∧
    (∀ q : String,
        (∀ p ∈ phrases, ¬ p.data <:+: (lowerStr q).data) →
        (∀ k ∈ chartKeywords, k.data <:+: (lowerStr q).data → isGenericVerb k = true) →
        (∀ t ∈ chartRelated, ¬ t.data <:+: (lowerStr q).data) →
        detectChartRequest q = false) ∧
    (∀ q : String, (∀ k ∈ chartKeywords, ¬ k.data <:+: (lowerStr q).data) →
        detectChartRequest q = false) := by
  have hPhrase : ∀ (q p : String), p ∈ phrases → p.data <:+: (lowerStr q).data →
      detectChartRequest q = true := by
    intro q p hp hinf
    have hany : phrases.any (fun p' => strIncludes (lowerStr q) p') = true :=
      List.any_eq_true.mpr ⟨p, hp, (strIncludes_true_iff _ _).mpr hinf⟩
    simp [detectChartRequest, hany]
  have hFalse : ∀ q : String,
      (∀ p ∈ phrases, ¬ p.data <:+: (lowerStr q).data) →
      (∀ k ∈ chartKeywords, k.data <:+: (lowerStr q).data → isGenericVerb k = true) →
      (∀ t ∈ chartRelated, ¬ t.data <:+: (lowerStr q).data) →
      detectChartRequest q = false := by
    intro q h1 h2 h3
    have hanyP : phrases.any (fun p => strIncludes (lowerStr q) p) = false := by
      rw [List.any_eq_false]
      intro p hp
      simp only [strIncludes, decide_eq_true_eq]
      exact h1 p hp
    have hCtx : chartRelated.any (fun t => strIncludes (lowerStr q) t) = false := by
      rw [List.any_eq_false]
      intro t ht
      simp only [strIncludes, decide_eq_true_eq]
      exact h3 t ht
    have hanyK : chartKeywords.any (fun k =>
        strIncludes (lowerStr q) k &&
          (if isGenericVerb k then
            chartRelated.any (fun t => strIncludes (lowerStr q) t)
          else true)) = false := by
      rw [List.any_eq_false]
      intro k hk
      by_cases hin : strIncludes (lowerStr q) k = true
      · have hg := h2 k hk ((strIncludes_true_iff _ _).mp hin)
        simp [hin, hg, hCtx]
      · rw [Bool.not_eq_true] at hin
        simp [hin]
    simp only [detectChartRequest]
    rw [hanyP, hanyK]
    simp
  refine ⟨?_, fun q p hp h => hPhrase q p hp h, hFalse, ?_⟩
  · intro q h
    apply hPhrase q overTimePhrase (by decide)
    have hmap := isInfix_map Char.toLower h
    have hfix : overTimePhrase.data.map Char.toLower = overTimePhrase.data := by decide
    rw [hfix] at hmap
    exact hmap
  · intro q h
    have hcover : ∀ p ∈ phrases, ∃ k, k ∈ chartKeywords ∧ k.data <:+: p.data := by decide
    have hsub : ∀ t ∈ chartRelated, t ∈ chartKeywords := by decide
    refine hFalse q ?_ ?_ ?_
    · intro p hp hcon
      obtain ⟨k, hk, hkp⟩ := hcover p hp
      exact h k hk (hkp.trans hcon)
    · intro k hk hcon
      exact absurd hcon (h k hk)
    · intro t ht
      exact h t (hsub t ht)

theorem detectChartRequest_matches_spec_witness :
    detectChartRequest salesOverTimeQuery = true ∧
      detectChartRequest showTicketsQuery = false := by
  constructor
  · exact detectChartRequest_matches_spec.1 salesOverTimeQuery (by decide)
  · exact detectChartRequest_matches_spec.2.2.1 showTicketsQuery
      (by decide) (by decide) (by decide)

/-- C10: keywords are matched by case-insensitive substring containment and
`draw` and `build` are not in the context-guarded verb set, so any query
whose lowercased text contains either — even inside a longer word — is
detected as a chart request regardless of chart-domain context. -/
theorem detectChartRequest_draw_build_unguarded :
    ∀ q : String,
      drawKeyword.data <:+: (lowerStr q).data ∨
        buildKeyword.data <:+: (lowerStr q).data →
      detectChartRequest q = true := by
  intro q h
  have hk : ∃ k, k ∈ chartKeywords ∧
      (strIncludes (lowerStr q) k &&
        (if isGenericVerb k then
          chartRelated.any (fun t => strIncludes (lowerStr q) t)
        else true)) = true := by
    rcases h with h | h
    · refine ⟨drawKeyword, by decide, ?_⟩
      have h1 : strIncludes (lowerStr q) drawKeyword = true :=
        (strIncludes_true_iff _ _).mpr h
      have h2 : isGenericVerb drawKeyword = false := by decide
      simp [h1, h2]
    · refine ⟨buildKeyword, by decide, ?_⟩
      have h1 : strIncludes (lowerStr q) buildKeyword = true :=
        (strIncludes_true_iff _ _).mpr h
      have h2 : isGenericVerb buildKeyword = false := by decide
      simp [h1, h2]
  obtain ⟨k, hk1, hk2⟩ := hk
  have hanyK : chartKeywords.any (fun k =>
      strIncludes (lowerStr q) k &&
        (if isGenericVerb k then
          chartRelated.any (fun t => strIncludes (lowerStr q) t)
        else true)) = true :=
    List.any_eq_true.mpr ⟨k, hk1, hk2⟩
  simp only [detectChartRequest]
  rw [hanyK]
  simp

theorem detectChartRequest_draw_build_unguarded_witness :
    detectChartRequest withdrawQuery = true ∧
      (∀ t ∈ chartRelated, ¬ t.data <:+: (lowerStr withdrawQuery).data) := by
  exact ⟨detectChartRequest_draw_build_unguarded withdrawQuery (Or.inl (by decide)),
    by decide⟩

theorem popLastIfUser_concat_user (l : List Turn) (c : String) :
    popLastIfUser (l ++ [{ role := roleUser, content := c }]) = l := by
  unfold popLastIfUser
  rw [List.getLast?_concat]
  simp

theorem stopRequest_history (s : St) :
    (stopRequest s).conversationHistory = popLastIfUser s.conversationHistory := by
  simp [stopRequest, displayLoadingFn, setProcessingStateFn]

theorem popLastIfUser_eq_self_iff (l : List Turn) :
    popLastIfUser l = l ↔
      l.getLast?.all (fun t => !(t.role == roleUser)) = true := by
  unfold popLastIfUser
  cases hl : l.getLast? with
  | none => simp
  | some t =>
    have hne : l ≠ [] := by
      intro hnil
      rw [hnil] at hl
      simp at hl
    by_cases hu : (t.role == roleUser) = true
    · simp only [hu, if_true, Option.all_some, Bool.not_true]
      constructor
      · intro heq
        have hlen := congrArg List.length heq
        rw [List.length_dropLast] at hlen
        have hpos : 0 < l.length := List.length_pos.mpr hne
        omega
      · intro hfalse
        exact absurd hfalse (by decide)
    · rw [Bool.not_eq_true] at hu
      simp [hu]

/-- C1: a send cancelled while in flight nets to zero history growth — the
user turn appended by the send is removed again (the cancel drops the final
entry iff its role is `user`), the aborted fetch settles without further
changes, and the sent bubble gains the in-place edit affordance which makes
it `contentEditable`. -/
theorem cancel_before_response_restores_history :
    (∀ st : St, jsTrim st.inputValue ≠ "" →
      (sendMessageBegin st).conversationHistory =
        st.conversationHistory ++
          [({ role := roleUser, content := jsTrim st.inputValue } : Turn)] ∧
      (stopRequest (sendMessageBegin st)).conversationHistory =
        st.conversationHistory ∧
      (settleAsk (st.showChartVisualization || detectChartRequest (jsTrim st.inputValue))
          (stopRequest (sendMessageBegin st))
          (FetchOutcome.thrown abortRejection)).conversationHistory =
        st.conversationHistory ∧
      (stopRequest (sendMessageBegin st)).lastUserMessageContainer =
        some { bubbleText := jsTrim st.inputValue, bubbleEditable := false,
               hasCopyButton := true, hasEditButton := true } ∧
      (enableEditing (settleAsk
          (st.showChartVisualization || detectChartRequest (jsTrim st.inputValue))
          (stopRequest (sendMessageBegin st))
          (FetchOutcome.thrown abortRejection))).lastUserMessageContainer =
        some { bubbleText := jsTrim st.inputValue, bubbleEditable := true,
               hasCopyButton := true, hasEditButton := true } ∧
      (enableEditing (settleAsk
          (st.showChartVisualization || detectChartRequest (jsTrim st.inputValue))
          (stopRequest (sendMessageBegin st))
          (FetchOutcome.thrown abortRejection))).activeEditableBubble = true) ∧
    (∀ (s : St) (t : Turn), s.conversationHistory.getLast? = some t →
      (stopRequest s).conversationHistory =
        if t.role = roleUser then s.conversationHistory.dropLast
        else s.conversationHistory) := by
  constructor
  · intro st h
    have hq : (jsTrim st.inputValue == "") = false := beq_eq_false_iff_ne.mpr h
    have habort : isAbortedError abortRejection = true := by decide
    refine ⟨?_, ?_, ?_, ?_, ?_, ?_⟩ <;>
      simp [sendMessageBegin, stopRequest, settleAsk, displayUserMessage,
        displayLoadingFn, setProcessingStateFn, enableEditing,
        makeMessageEditableFn, hq, habort, popLastIfUser_concat_user]
  · intro s t hlast
    rw [stopRequest_history]
    by_cases hu : t.role = roleUser
    · simp [popLastIfUser, hlast, hu]
    · have hub : (t.role == roleUser) = false := beq_eq_false_iff_ne.mpr hu
      simp [popLastIfUser, hlast, hub, hu]

theorem cancel_before_response_restores_history_witness :
    jsTrim draftSt.inputValue ≠ "" ∧
    (stopRequest (sendMessageBegin draftSt)).conversationHistory =
      draftSt.conversationHistory ∧
    sentAgainSt.conversationHistory.getLast? =
      some ({ role := roleUser, content := againQuery } : Turn) ∧
    (stopRequest sentAgainSt).conversationHistory =
      if ({ role := roleUser, content := againQuery } : Turn).role = roleUser
      then sentAgainSt.conversationHistory.dropLast
      else sentAgainSt.conversationHistory := by
  refine ⟨by decide, ?_, by decide, ?_⟩
  · exact (cancel_before_response_restores_history.1 draftSt (by decide)).2.1
  · exact cancel_before_response_restores_history.2 sentAgainSt _ (by decide)

/-- C2: after send, cancel, in-place edit and commit (send button or Enter
without Shift), the history is the pre-send history extended by exactly one
fresh user entry holding the edited text, editing is disabled, and the
resend issues the same request an original send of the edited text would
issue. -/
theorem edit_resubmit_yields_single_entry :
    ∀ (st : St) (b : String), jsTrim st.inputValue ≠ "" → jsTrim b ≠ "" →
      let settled := settleAsk
        (st.showChartVisualization || detectChartRequest (jsTrim st.inputValue))
        (stopRequest (sendMessageBegin st)) (FetchOutcome.thrown abortRejection)
      let editedSt := userEditsBubble b (enableEditing settled)
      let final := handleSendButtonClick editedSt
      final.conversationHistory =
        st.conversationHistory ++
          [({ role := roleUser, content := jsTrim b } : Turn)] ∧
      onEditableBubbleKeydown keyEnter false editedSt =
        handleSendButtonClick editedSt ∧
      final.activeEditableBubble = false ∧
      final.lastUserMessageContainer =
        some { bubbleText := b, bubbleEditable := false,
               hasCopyButton := true, hasEditButton := false } ∧
      final.isProcessing = true ∧
      final.issued.getLast? =
        (sendMessageBegin { st with inputValue := b }).issued.getLast? := by
  intro st b h1 h2
  have hq1 : (jsTrim st.inputValue == "") = false := beq_eq_false_iff_ne.mpr h1
  have hq2 : (jsTrim b == "") = false := beq_eq_false_iff_ne.mpr h2
  have habort : isAbortedError abortRejection = true := by decide
  refine ⟨?_, ?_, ?_, ?_, ?_, ?_⟩ <;>
    simp [sendMessageBegin, stopRequest, settleAsk, displayUserMessage,
      displayLoadingFn, setProcessingStateFn, enableEditing, userEditsBubble,
      makeMessageEditableFn, removeEditToolbarFn, handleSendButtonClick,
      onEditableBubbleKeydown, commitFromEdit, startRequestBegin, mkAskRequest,
      keyEnter, hq1, hq2, habort, popLastIfUser_concat_user]

theorem edit_resubmit_yields_single_entry_witness :
    jsTrim draftSt.inputValue ≠ "" ∧ jsTrim editedQuery ≠ "" ∧
    resentDraftSt.conversationHistory =
      draftSt.conversationHistory ++
        [({ role := roleUser, content := jsTrim editedQuery } : Turn)] ∧
    resentDraftSt.isProcessing = true := by
  refine ⟨by decide, by decide, ?_, ?_⟩
  · exact (edit_resubmit_yields_single_entry draftSt editedQuery
      (by decide) (by decide)).1
  · exact (edit_resubmit_yields_single_entry draftSt editedQuery
      (by decide) (by decide)).2.2.2.2.1

theorem cancel_twice_pops_two_entries :
    cancelledOnceSt.conversationHistory =
      [({ role := roleUser, content := helloQuery } : Turn)] ∧
    (stopRequest cancelledOnceSt).conversationHistory = [] ∧
    (stopRequest cancelledOnceSt).conversationHistory ≠
      cancelledOnceSt.conversationHistory := by
  exact ⟨by decide, by decide, by decide⟩

theorem procLabelInv_setProcessing (p : Bool) (st : St) :
    procLabelInv (setProcessingStateFn p st) := rfl

theorem settleAsk_isProcessing (sc : Bool) (st : St) (o : FetchOutcome) :
    (settleAsk sc st o).isProcessing = false := by
  cases o <;>
    simp only [settleAsk, displayAiMessage, displayLoadingFn, setProcessingStateFn] <;>
    (repeat' split) <;> rfl

theorem settleAsk_label (sc : Bool) (st : St) (o : FetchOutcome) :
    (settleAsk sc st o).sendButtonLabel = labelSend := by
  cases o <;>
    simp only [settleAsk, displayAiMessage, displayLoadingFn, setProcessingStateFn] <;>
    (repeat' split) <;> (try rfl) <;> simp_all

theorem settleAsk_loadingShown (sc : Bool) (st : St) (o : FetchOutcome) :
    (settleAsk sc st o).loadingShown = false := by
  cases o <;>
    simp only [settleAsk, displayAiMessage, displayLoadingFn, setProcessingStateFn] <;>
    (repeat' split) <;> rfl

/-- C3 (amended): a second cancel immediately after a first one changes
nothing except possibly the history, which it leaves unchanged iff the
history does not then end with a role-`user` entry.  A cancel after the
fetch has settled naturally likewise keeps the processing flag, action
control, loader, input, edit state and logs unchanged and trims the history
under the same condition, but it is not a complete no-op: it re-attaches
the copy/edit affordance to the last user message container and marks a
surviving abort controller (left non-null by the catch path) aborted. -/
theorem cancel_idempotent_except_trailing_user :
    (∀ s : St,
      (stopRequest (stopRequest s)).isProcessing = (stopRequest s).isProcessing ∧
      (stopRequest (stopRequest s)).sendButtonLabel = (stopRequest s).sendButtonLabel ∧
      (stopRequest (stopRequest s)).loadingShown = (stopRequest s).loadingShown ∧
      (stopRequest (stopRequest s)).abortCtrl = (stopRequest s).abortCtrl ∧
      (stopRequest (stopRequest s)).lastUserMessageContainer =
        (stopRequest s).lastUserMessageContainer ∧
      (stopRequest (stopRequest s)).activeEditableBubble =
        (stopRequest s).activeEditableBubble ∧
      (stopRequest (stopRequest s)).inputValue = (stopRequest s).inputValue ∧
      (stopRequest (stopRequest s)).displayed = (stopRequest s).displayed ∧
      (stopRequest (stopRequest s)).issued = (stopRequest s).issued ∧
      ((stopRequest (stopRequest s)).conversationHistory =
          (stopRequest s).conversationHistory ↔
        (stopRequest s).conversationHistory.getLast?.all
          (fun t => !(t.role == roleUser)) = true)) ∧
    (∀ (sc : Bool) (st : St) (o : FetchOutcome),
      (stopRequest (settleAsk sc st o)).isProcessing =
        (settleAsk sc st o).isProcessing ∧
      (stopRequest (settleAsk sc st o)).sendButtonLabel =
        (settleAsk sc st o).sendButtonLabel ∧
      (stopRequest (settleAsk sc st o)).loadingShown =
        (settleAsk sc st o).loadingShown ∧
      (stopRequest (settleAsk sc st o)).inputValue =
        (settleAsk sc st o).inputValue ∧
      (stopRequest (settleAsk sc st o)).activeEditableBubble =
        (settleAsk sc st o).activeEditableBubble ∧
      (stopRequest (settleAsk sc st o)).displayed =
        (settleAsk sc st o).displayed ∧
      (stopRequest (settleAsk sc st o)).issued =
        (settleAsk sc st o).issued ∧
      ((stopRequest (settleAsk sc st o)).conversationHistory =
          (settleAsk sc st o).conversationHistory ↔
        (settleAsk sc st o).conversationHistory.getLast?.all
          (fun t => !(t.role == roleUser)) = true) ∧
      (stopRequest (settleAsk sc st o)).lastUserMessageContainer =
        (settleAsk sc st o).lastUserMessageContainer.map makeMessageEditableFn ∧
      (stopRequest (settleAsk sc st o)).abortCtrl =
        (settleAsk sc st o).abortCtrl.map (fun _ => true)) := by
  constructor
  · intro s
    refine ⟨?_, ?_, ?_, ?_, ?_, ?_, ?_, ?_, ?_, ?_⟩
    · simp [stopRequest, displayLoadingFn, setProcessingStateFn]
    · simp [stopRequest, displayLoadingFn, setProcessingStateFn]
    · simp [stopRequest, displayLoadingFn, setProcessingStateFn]
    · simp [stopRequest, displayLoadingFn, setProcessingStateFn]
    · simp only [stopRequest, displayLoadingFn, setProcessingStateFn]
      cases s.lastUserMessageContainer <;> rfl
    · simp [stopRequest, displayLoadingFn, setProcessingStateFn]
    · simp [stopRequest, displayLoadingFn, setProcessingStateFn]
    · simp [stopRequest, displayLoadingFn, setProcessingStateFn]
    · simp [stopRequest, displayLoadingFn, setProcessingStateFn]
    · rw [stopRequest_history (stopRequest s)]
      exact popLastIfUser_eq_self_iff _
  · intro sc st o
    refine ⟨?_, ?_, ?_, ?_, ?_, ?_, ?_, ?_, ?_, ?_⟩
    · rw [settleAsk_isProcessing]
      simp [stopRequest, displayLoadingFn, setProcessingStateFn]
    · rw [settleAsk_label]
      simp [stopRequest, displayLoadingFn, setProcessingStateFn]
    · rw [settleAsk_loadingShown]
      simp [stopRequest, displayLoadingFn, setProcessingStateFn]
    · simp [stopRequest, displayLoadingFn, setProcessingStateFn]
    · simp [stopRequest, displayLoadingFn, setProcessingStateFn]
    · simp [stopRequest, displayLoadingFn, setProcessingStateFn]
    · simp [stopRequest, displayLoadingFn, setProcessingStateFn]
    · rw [stopRequest_history (settleAsk sc st o)]
      exact popLastIfUser_eq_self_iff _
    · simp [stopRequest, displayLoadingFn, setProcessingStateFn]
    · simp [stopRequest, displayLoadingFn, setProcessingStateFn]

theorem procLabelInv_settleAsk (sc : Bool) (st : St) (o : FetchOutcome) :
    procLabelInv (settleAsk sc st o) := by
  unfold procLabelInv
  rw [settleAsk_isProcessing, settleAsk_label]
  rfl

theorem procLabelInv_stopRequest (st : St) : procLabelInv (stopRequest st) := rfl

theorem procLabelInv_startRequestBegin (q : String) (st : St) :
    procLabelInv (startRequestBegin q st) := rfl

theorem procLabelInv_sendMessageBegin (st : St) (h : procLabelInv st) :
    procLabelInv (sendMessageBegin st) := by
  unfold sendMessageBegin
  by_cases hq : (jsTrim st.inputValue == "") = true
  · simp only [hq, if_true]
    exact h
  · rw [Bool.not_eq_true] at hq
    simp only [hq, Bool.false_eq_true, if_false]
    rfl

theorem procLabelInv_commitFromEdit (st : St) (h : procLabelInv st) :
    procLabelInv (commitFromEdit st) := by
  unfold commitFromEdit
  cases hc : st.lastUserMessageContainer with
  | none => exact h
  | some c =>
    by_cases he : (jsTrim c.bubbleText == "") = true
    · simp only [he, if_true]
      exact h
    · rw [Bool.not_eq_true] at he
      simp only [he, Bool.false_eq_true, if_false]
      exact procLabelInv_startRequestBegin _ _

theorem procLabelInv_handleSendButtonClick (st : St) (h : procLabelInv st) :
    procLabelInv (handleSendButtonClick st) := by
  unfold handleSendButtonClick
  by_cases hp : st.isProcessing = true
  · simp only [hp, if_true]
    exact procLabelInv_stopRequest st
  · rw [Bool.not_eq_true] at hp
    by_cases ha : st.activeEditableBubble = true
    · simp only [hp, ha, Bool.false_eq_true, if_false, if_true]
      exact procLabelInv_commitFromEdit st h
    · rw [Bool.not_eq_true] at ha
      simp only [hp, ha, Bool.false_eq_true, if_false]
      exact procLabelInv_sendMessageBegin st h

theorem procLabelInv_onInputKeydown (k : String) (st : St) (h : procLabelInv st) :
    procLabelInv (onInputKeydown k st) := by
  unfold onInputKeydown
  by_cases hk : (k == keyEnter) = true
  · simp only [hk, if_true]
    by_cases hp : st.isProcessing = true
    · simp only [hp, if_true]
      exact h
    · rw [Bool.not_eq_true] at hp
      by_cases ha : st.activeEditableBubble = true
      · simp only [hp, ha, Bool.false_eq_true, if_false, if_true]
        exact h
      · rw [Bool.not_eq_true] at ha
        simp only [hp, ha, Bool.false_eq_true, if_false]
        exact procLabelInv_sendMessageBegin st h
  · rw [Bool.not_eq_true] at hk
    simp only [hk, Bool.false_eq_true, if_false]
    exact h

theorem procLabelInv_onEditableBubbleKeydown (k : String) (sh : Bool) (st : St)
    (h : procLabelInv st) : procLabelInv (onEditableBubbleKeydown k sh st) := by
  unfold onEditableBubbleKeydown
  by_cases hk : (k == keyEnter && !sh) = true
  · simp only [hk, if_true]
    by_cases ha : st.activeEditableBubble = true
    · simp only [ha, if_true]
      exact procLabelInv_commitFromEdit st h
    · rw [Bool.not_eq_true] at ha
      simp only [ha, Bool.false_eq_true, if_false]
      exact h
  · rw [Bool.not_eq_true] at hk
    simp only [hk, Bool.false_eq_true, if_false]
    exact h

theorem procLabelInv_enableEditing (st : St) (h : procLabelInv st) :
    procLabelInv (enableEditing st) := by
  unfold enableEditing
  cases hc : st.lastUserMessageContainer with
  | none => exact h
  | some c => exact h

theorem procLabelInv_userEditsBubble (b : String) (st : St) (h : procLabelInv st) :
    procLabelInv (userEditsBubble b st) := h

/-- C4: while a request is in flight (the processing flag set), Enter in the
input field is suppressed and the single action control — reading "Stop"
under the flag-label lockstep that every operation preserves — routes the
click to `stopRequest`, so no second request is ever issued. -/
theorem single_inflight_guard :
    (∀ st : St, st.isProcessing = true → onInputKeydown keyEnter st = st) ∧
    (∀ st : St, st.isProcessing = true → handleSendButtonClick st = stopRequest st) ∧
    (∀ st : St, (stopRequest st).issued = st.issued) ∧
    (∀ st : St, st.isProcessing = true →
      (handleSendButtonClick st).issued = st.issued) ∧
    (∀ st : St, st.isProcessing = true → procLabelInv st →
      st.sendButtonLabel = labelStop) ∧
    (∀ (k : String) (st : St), procLabelInv st →
      procLabelInv (onInputKeydown k st)) ∧
    (∀ st : St, procLabelInv st → procLabelInv (handleSendButtonClick st)) ∧
    (∀ (k : String) (sh : Bool) (st : St), procLabelInv st →
      procLabelInv (onEditableBubbleKeydown k sh st)) ∧
    (∀ st : St, procLabelInv (stopRequest st)) ∧
    (∀ st : St, procLabelInv st → procLabelInv (sendMessageBegin st)) ∧
    (∀ (q : String) (st : St), procLabelInv (startRequestBegin q st)) ∧
    (∀ (sc : Bool) (st : St) (o : FetchOutcome), procLabelInv (settleAsk sc st o)) ∧
    (∀ st : St, procLabelInv st → procLabelInv (enableEditing st)) ∧
    (∀ (b : String) (st : St), procLabelInv st →
      procLabelInv (userEditsBubble b st)) := by
  refine ⟨?_, ?_, ?_, ?_, ?_, procLabelInv_onInputKeydown,
    procLabelInv_handleSendButtonClick, procLabelInv_onEditableBubbleKeydown,
    procLabelInv_stopRequest, procLabelInv_sendMessageBegin,
    procLabelInv_startRequestBegin, procLabelInv_settleAsk,
    procLabelInv_enableEditing, procLabelInv_userEditsBubble⟩
  · intro st h
    simp [onInputKeydown, h]
  · intro st h
    simp [handleSendButtonClick, h]
  · intro st
    simp [stopRequest, displayLoadingFn, setProcessingStateFn]
  · intro st h
    rw [show handleSendButtonClick st = stopRequest st by simp [handleSendButtonClick, h]]
    simp [stopRequest, displayLoadingFn, setProcessingStateFn]
  · intro st h hinv
    rw [hinv, h]
    rfl

theorem single_inflight_guard_witness :
    sentHelloSt.isProcessing = true ∧
    onInputKeydown keyEnter sentHelloSt = sentHelloSt ∧
    handleSendButtonClick sentHelloSt = stopRequest sentHelloSt ∧
    (handleSendButtonClick sentHelloSt).issued = sentHelloSt.issued ∧
    sentHelloSt.sendButtonLabel = labelStop := by
  refine ⟨by decide, ?_, ?_, ?_, ?_⟩
  · exact single_inflight_guard.1 sentHelloSt (by decide)
  · exact single_inflight_guard.2.1 sentHelloSt (by decide)
  · exact single_inflight_guard.2.2.2.1 sentHelloSt (by decide)
  · exact single_inflight_guard.2.2.2.2.1 sentHelloSt (by decide)
      (by unfold procLabelInv; decide)

/-- C8: a non-2xx response's nonempty structured `detail` is displayed
verbatim and recorded in history as an assistant turn; a non-abort rejection
displays the generic apology and touches nothing in history; an abort
rejection displays nothing and changes nothing beyond clearing the loader
and the processing flag; and the abort/non-abort routing reads only
`error.name` and `error.code`, never the message text. -/
theorem failure_routing_by_kind :
    (∀ (sc : Bool) (st : St) (d : String), d ≠ "" →
      (settleAsk sc st (FetchOutcome.notOk (some d))).displayed =
        st.displayed ++ [d] ∧
      (settleAsk sc st (FetchOutcome.notOk (some d))).conversationHistory =
        st.conversationHistory ++
          [({ role := roleAssistant, content := d } : Turn)]) ∧
    (∀ (sc : Bool) (st : St) (e : JsError), isAbortedError e = false →
      (settleAsk sc st (FetchOutcome.thrown e)).displayed =
        st.displayed ++ [apologyMsg] ∧
      (settleAsk sc st (FetchOutcome.thrown e)).conversationHistory =
        st.conversationHistory) ∧
    (∀ (sc : Bool) (st : St) (e : JsError), isAbortedError e = true →
      settleAsk sc st (FetchOutcome.thrown e) =
        setProcessingStateFn false (displayLoadingFn false st)) ∧
    (∀ (sc : Bool) (st : St) (e : JsError) (m : String),
      settleAsk sc st (FetchOutcome.thrown ({ e with message := m })) =
        settleAsk sc st (FetchOutcome.thrown e)) := by
  refine ⟨?_, ?_, ?_, ?_⟩
  · intro sc st d hd
    have hdb : (d == "") = false := beq_eq_false_iff_ne.mpr hd
    constructor <;>
      simp [settleAsk, jsOrElse, hdb, displayAiMessage, displayLoadingFn,
        setProcessingStateFn]
  · intro sc st e he
    constructor <;>
      simp [settleAsk, he, displayAiMessage, displayLoadingFn,
        setProcessingStateFn]
  · intro sc st e he
    simp [settleAsk, he]
  · intro sc st e m
    rfl

theorem failure_routing_by_kind_witness :
    sampleBackendDetail ≠ "" ∧
    (settleAsk false oneUserSt
        (FetchOutcome.notOk (some sampleBackendDetail))).displayed =
      oneUserSt.displayed ++ [sampleBackendDetail] ∧
    (settleAsk false oneUserSt
        (FetchOutcome.notOk (some sampleBackendDetail))).conversationHistory =
      oneUserSt.conversationHistory ++
        [({ role := roleAssistant, content := sampleBackendDetail } : Turn)] ∧
    isAbortedError networkError = false ∧
    (settleAsk false oneUserSt (FetchOutcome.thrown networkError)).displayed =
      oneUserSt.displayed ++ [apologyMsg] ∧
    (settleAsk false oneUserSt (FetchOutcome.thrown networkError)).conversationHistory =
      oneUserSt.conversationHistory ∧
    isAbortedError abortRejection = true ∧
    settleAsk false oneUserSt (FetchOutcome.thrown abortRejection) =
      setProcessingStateFn false (displayLoadingFn false oneUserSt) := by
  refine ⟨by decide, ?_, ?_, by decide, ?_, ?_, by decide, ?_⟩
  · exact (failure_routing_by_kind.1 false oneUserSt sampleBackendDetail (by decide)).1
  · exact (failure_routing_by_kind.1 false oneUserSt sampleBackendDetail (by decide)).2
  · exact (failure_routing_by_kind.2.1 false oneUserSt networkError (by decide)).1
  · exact (failure_routing_by_kind.2.1 false oneUserSt networkError (by decide)).2
  · exact failure_routing_by_kind.2.2.1 false oneUserSt abortRejection (by decide)

theorem empty_server_history_not_adopted :
    emptyHistoryResult.conversation_history = some ([] : List Turn) ∧
    (settleAsk false oneUserSt
        (FetchOutcome.ok emptyHistoryResult)).conversationHistory =
      oneUserSt.conversationHistory ∧
    oneUserSt.conversationHistory ≠ ([] : List Turn) ∧
    errorBodyResult.conversation_history = some serverHist ∧
    (settleAsk false oneUserSt
        (FetchOutcome.ok errorBodyResult)).conversationHistory =
      serverHist ++
        [({ role := roleAssistant, content := genericErrorHistoryMsg } : Turn)] ∧
    serverHist ++
        [({ role := roleAssistant, content := genericErrorHistoryMsg } : Turn)] ≠
      serverHist := by
  exact ⟨rfl, by decide, by decide, rfl, by decide, by decide⟩

/-- C9 (amended): a 2xx response carrying a nonempty `conversation_history`
and no `error` field has that sequence adopted wholesale as the entire new
local history; an included empty history is ignored, and an `error`-carrying
body appends a local assistant entry after adoption. -/
theorem nonempty_server_history_adopted :
    ∀ (sc : Bool) (st : St) (r : AskResult) (h : List Turn),
      r.conversation_history = some h → h ≠ [] → r.error = none →
      (settleAsk sc st (FetchOutcome.ok r)).conversationHistory = h := by
  intro sc st r h h1 h2 h3
  have hlen : 0 < h.length := List.length_pos.mpr h2
  simp only [settleAsk, h1, h3, jsTruthyStr, Bool.false_eq_true, if_false]
  rw [if_pos hlen]
  repeat' split <;> (try rfl) <;> (try simp [displayAiMessage])

theorem nonempty_server_history_adopted_witness :
    adoptResult.conversation_history = some serverHist ∧
    serverHist ≠ [] ∧
    adoptResult.error = none ∧
    (settleAsk false initialSt (FetchOutcome.ok adoptResult)).conversationHistory =
      serverHist :=
  ⟨rfl, by decide, rfl,
    nonempty_server_history_adopted false initialSt adoptResult serverHist rfl
      (by decide) rfl⟩

end QubeWidget
